import Mathlib

/-!
Shallow embedding of the nexus library core: the `Result<T, E>` sum type of
`src/include/nexus/utils/result.hpp` with its iterators and combinators, and
the `TaskQueue<R, P>` of `src/include/nexus/exec/queue.hpp` with the policies
of `src/include/nexus/exec/policy.hpp`.

Conventions of the embedding:
- A C++ function that can throw is embedded as a function into `Except Error`.
- The `Error` class lives in a header that is not part of the sources here;
  following its use sites and the spec ("a value carrying one of a fixed set
  of kinds plus a human-readable message") it is a kind tag plus a message.
- The formatting adapter `to_formattable` is likewise external; the embedding
  passes an explicit formatting function where the source formats a payload.
- Iterators hold a single pointer-or-null to the originating Result; the
  embedding represents that pointer as `Option (Result T E)`, with `none` for
  the null pointer (the universal end iterator).
-/

set_option autoImplicit false

namespace Nexus

universe u v

/-- Kind tag of the external `Error` class; `Unwrap` is the only kind the
core surfaces (`Error::Unwrap`). -/
inductive ErrorKind where
  | Unwrap
  deriving DecidableEq, Repr

/-- The external `Error` value thrown on misuse: a kind plus a message.
Modelled from the spec: `nexus/error.hpp` is not among the sources; the spec
describes an `Error` as "a value carrying one of a fixed set of kinds plus a
human-readable message". -/
structure Error where
  kind : ErrorKind
  msg : String
  deriving DecidableEq, Repr

/-- `Result<T, E>`: tagged sum of `Ok<T>` and `Err<E>` (the class derives
from `std::variant<Ok<T>, Err<E>>`; the two wrappers each carry one payload). -/
inductive Result (T : Type u) (E : Type v) where
  | ok (v : T)
  | err (e : E)
  deriving DecidableEq, Repr

namespace Result

variable {T : Type u} {E : Type v}

/-- `is_ok()`: `std::get_if<Ok<ValueType>>(&_base()) != nullptr`. -/
def is_ok : Result T E → Bool
  | .ok _ => true
  | .err _ => false

/-- `is_err()`: `std::get_if<Err<ErrorType>>(&_base()) != nullptr`. -/
def is_err : Result T E → Bool
  | .ok _ => false
  | .err _ => true

/-- `unwrap()`: visit the variant; on `Ok` move the value out, on `Err` throw
`Error(Error::Unwrap, "Result is an error ({})", to_formattable(error))`.
`fmtE` stands for the external formatting adapter applied to the payload. -/
def unwrap (fmtE : E → String) : Result T E → Except Error T
  | .ok v => .ok v
  | .err e => .error ⟨.Unwrap, "Result is an error (" ++ fmtE e ++ ")"⟩

/-- `unwrap_err()`: dual of `unwrap`; on `Ok` the thrown message is
`"Result is not an error ({})"` with the formatted value. -/
def unwrap_err (fmtT : T → String) : Result T E → Except Error E
  | .ok v => .error ⟨.Unwrap, "Result is not an error (" ++ fmtT v ++ ")"⟩
  | .err e => .ok e

/-- `unwrap_or(ValueType&&)`: visit; on `Ok` move the value out, on `Err`
move the fallback out. Never throws. -/
def unwrap_or (r : Result T E) (value : T) : T :=
  match r with
  | .ok v => v
  | .err _ => value

/-- `unwrap_or(const ValueType&)`: `return unwrap_or(ValueType(value));` —
copies the argument and forwards to the rvalue overload, returning its
result. -/
def unwrap_or_lref (r : Result T E) (value : T) : T :=
  r.unwrap_or value

/-- `unwrap_or_default()`: `return unwrap_or(ValueType());`. -/
def unwrap_or_default [Inhabited T] (r : Result T E) : T :=
  r.unwrap_or default

/-- `expect(std::string&&)`: if `is_ok()` return `unwrap()` (which cannot
throw on the `Ok` branch), else throw `Error(Error::Unwrap, std::move(msg))`. -/
def expect (r : Result T E) (msg : String) : Except Error T :=
  match r with
  | .ok v => .ok v
  | .err _ => .error ⟨.Unwrap, msg⟩

/-- `expect(const std::string&)`: the body is `expect(std::string(msg));`
with no `return` statement. A thrown `Error` propagates; on the `Ok` branch
control flows off the end of a value-returning function, so no value is
returned — embedded as `.ok none`. -/
def expect_lref (r : Result T E) (msg : String) : Except Error (Option T) :=
  match r.expect msg with
  | .ok _ => .ok none
  | .error e => .error e

/-- `expect_err(std::string&&)`: if `is_err()` return `unwrap_err()`, else
throw `Error(Error::Unwrap, std::move(msg))`. -/
def expect_err (r : Result T E) (msg : String) : Except Error E :=
  match r with
  | .ok _ => .error ⟨.Unwrap, msg⟩
  | .err e => .ok e

/-- `expect_err(const std::string&)`: `return expect_err(std::string(msg));`
— copies the message and forwards, returning the result. -/
def expect_err_lref (r : Result T E) (msg : String) : Except Error E :=
  r.expect_err msg

/-- `map(conv)`: if `is_ok()` return `Ok(conv(unwrap()))`, else
`Err(unwrap_err())` (the error payload is moved through unchanged). -/
def map {U : Type u} (conv : T → U) : Result T E → Result U E
  | .ok v => .ok (conv v)
  | .err e => .err e

/-- `map_err(conv)`: if `is_err()` return `Err(conv(unwrap_err()))`, else
`Ok(unwrap())` (the value is moved through unchanged). -/
def map_err {F : Type v} (conv : E → F) : Result T E → Result T F
  | .ok v => .ok v
  | .err e => .err (conv e)

/-- `flattern()` on `Result<Result<U, E>, E>`: if `is_err()` return
`Err(unwrap_err())`, else return `unwrap()` — the inner Result. -/
def flattern {U : Type u} : Result (Result U E) E → Result U E
  | .ok inner => inner
  | .err e => .err e

end Result

/-- `Result::Iterator`: carries one field `Result *_result{nullptr}`; the
null pointer (here `none`) is the universal end iterator. -/
structure Iterator (T : Type u) (E : Type v) where
  _result : Option (Result T E)
  deriving DecidableEq, Repr

namespace Iterator

variable {T : Type u} {E : Type v}

/-- The converting constructor `Iterator(Result&)`:
`_result(result.is_err() ? nullptr : &result)`. -/
def mk_from (result : Result T E) : Iterator T E :=
  ⟨if result.is_err then none else some result⟩

/-- The default constructor: `_result` keeps its initializer `nullptr`. -/
def mk_default : Iterator T E :=
  ⟨none⟩

/-- `operator*`: `std::get_if<Ok<ValueType>>` on the pointed-to variant
(`std::get_if` on a null variant pointer yields null); on a non-null `Ok`
alternative return the value, otherwise throw
`Error(Error::Unwrap, "Result cannot be dereferenced")`. -/
def deref (it : Iterator T E) : Except Error T :=
  match it._result with
  | some (.ok v) => .ok v
  | some (.err _) => .error ⟨.Unwrap, "Result cannot be dereferenced"⟩
  | none => .error ⟨.Unwrap, "Result cannot be dereferenced"⟩

/-- Pre-increment `operator++`: `_result = nullptr; return *this;`. -/
def inc (_it : Iterator T E) : Iterator T E :=
  ⟨none⟩

/-- `operator==`: pointer comparison `_result == other._result` (in the
embedding the pointer is identified with the pointed-to Result value). -/
def eq [DecidableEq T] [DecidableEq E] (a b : Iterator T E) : Bool :=
  a._result = b._result

end Iterator

/-- `Result::ErrorIterator`: same single pointer-or-null representation,
yielding the error payload instead of the value. -/
structure ErrorIterator (T : Type u) (E : Type v) where
  _result : Option (Result T E)
  deriving DecidableEq, Repr

namespace ErrorIterator

variable {T : Type u} {E : Type v}

/-- The converting constructor `ErrorIterator(Result&)`:
`_result(result.is_ok() ? nullptr : &result)`. -/
def mk_from (result : Result T E) : ErrorIterator T E :=
  ⟨if result.is_ok then none else some result⟩

/-- The default constructor: `_result` keeps its initializer `nullptr`. -/
def mk_default : ErrorIterator T E :=
  ⟨none⟩

/-- `operator*`: `std::get_if<Err<ErrorType>>` on the pointed-to variant; on
a non-null `Err` alternative return the error, otherwise throw
`Error(Error::Unwrap, "Result cannot be dereferenced")`. -/
def deref (it : ErrorIterator T E) : Except Error E :=
  match it._result with
  | some (.err e) => .ok e
  | some (.ok _) => .error ⟨.Unwrap, "Result cannot be dereferenced"⟩
  | none => .error ⟨.Unwrap, "Result cannot be dereferenced"⟩

/-- Pre-increment `operator++`: `_result = nullptr; return *this;`. -/
def inc (_it : ErrorIterator T E) : ErrorIterator T E :=
  ⟨none⟩

/-- `operator==`: pointer comparison `_result == other._result`. -/
def eq [DecidableEq T] [DecidableEq E] (a b : ErrorIterator T E) : Bool :=
  a._result = b._result

end ErrorIterator

namespace Result

variable {T : Type u} {E : Type v}

/-- `begin()`: `Iterator(*this)`. -/
def begin (r : Result T E) : Iterator T E :=
  Iterator.mk_from r

/-- `end()`: `Iterator()` — default-constructed. -/
def endIt : Iterator T E :=
  Iterator.mk_default

/-- `ebegin()`: `ErrorIterator(*this)`. -/
def ebegin (r : Result T E) : ErrorIterator T E :=
  ErrorIterator.mk_from r

/-- `eend()`: `ErrorIterator()` — default-constructed. -/
def eendIt : ErrorIterator T E :=
  ErrorIterator.mk_default

end Result

/-- `Result::ErrorEnumerator`: holds a pointer to the Result; `begin()` and
`end()` forward to `ebegin()` and `eend()`. -/
structure ErrorEnumerator (T : Type u) (E : Type v) where
  _result : Result T E

namespace ErrorEnumerator

variable {T : Type u} {E : Type v}

/-- `ErrorEnumerator::begin()`: `_result->ebegin()`. -/
def begin (en : ErrorEnumerator T E) : ErrorIterator T E :=
  en._result.ebegin

/-- `ErrorEnumerator::end()`: `_result->eend()`. -/
def endIt (_en : ErrorEnumerator T E) : ErrorIterator T E :=
  Result.eendIt

end ErrorEnumerator

namespace Result

variable {T : Type u} {E : Type v}

/-- `error_enumerator()`: `ErrorEnumerator(*this)`. -/
def error_enumerator (r : Result T E) : ErrorEnumerator T E :=
  ⟨r⟩

end Result

/-- The range-for loop over the value iterators: while the iterator differs
from the null end iterator, dereference it (collecting the yielded value, or
propagating a thrown `Error`) and pre-increment. -/
def iterLoopV {T : Type u} {E : Type v} (it : Iterator T E) :
    Except Error (List T) :=
  match h : it._result with
  | none => .ok []
  | some _ => do
    let v ← it.deref
    let rest ← iterLoopV it.inc
    pure (v :: rest)
termination_by (if it._result.isSome then 1 else 0)
decreasing_by simp [Iterator.inc, h]

/-- The range-for loop over the error iterators, same driving discipline. -/
def iterLoopE {T : Type u} {E : Type v} (it : ErrorIterator T E) :
    Except Error (List E) :=
  match h : it._result with
  | none => .ok []
  | some _ => do
    let e ← it.deref
    let rest ← iterLoopE it.inc
    pure (e :: rest)
termination_by (if it._result.isSome then 1 else 0)
decreasing_by simp [ErrorIterator.inc, h]

namespace Result

variable {T : Type u} {E : Type v}

/-- Iterating a Result from `begin()` to `end()` with the value iterator. -/
def iterValues (r : Result T E) : Except Error (List T) :=
  iterLoopV r.begin

/-- Iterating the error view of a Result: range-for over
`error_enumerator()`, i.e. from `ebegin()` to `eend()`. -/
def iterErrors (r : Result T E) : Except Error (List E) :=
  iterLoopE r.error_enumerator.begin

end Result

namespace exec

/-- `TaskPolicy` from `src/include/nexus/exec/policy.hpp`. -/
inductive TaskPolicy where
  | FIFO
  | LIFO
  deriving DecidableEq, Repr

/-- Modelled from the spec: `detail::TaskQueueInner<R, P>` lives in
`nexus/private/exec/queue.hpp`, which is not among the sources. The spec
says the underlying container is a sequence where push appends and pop
removes from the front under FIFO and from the back under LIFO. Tasks are
opaque to the queue, so the element type `R` stands for `Task<R>`. -/
structure TaskQueueInner (R : Type u) (P : TaskPolicy) where
  tasks : List R
  deriving DecidableEq, Repr

namespace TaskQueueInner

variable {R : Type u} {P : TaskPolicy}

/-- Push appends the task at the back of the sequence. -/
def push (q : TaskQueueInner R P) (task : R) : TaskQueueInner R P :=
  ⟨q.tasks ++ [task]⟩

/-- Element count of the underlying sequence. -/
def size (q : TaskQueueInner R P) : Nat :=
  q.tasks.length

/-- Pop removes one element, from the front under FIFO and from the back
under LIFO; `none` when the sequence is empty (the callers only pop a
non-empty queue). -/
def pop (q : TaskQueueInner R P) : Option (R × TaskQueueInner R P) :=
  match P with
  | .FIFO =>
    match q.tasks with
    | [] => none
    | task :: rest => some (task, ⟨rest⟩)
  | .LIFO =>
    match q.tasks.getLast? with
    | none => none
    | some task => some (task, ⟨q.tasks.dropLast⟩)

end TaskQueueInner

/-- `TaskQueue<R, P>` of `src/include/nexus/exec/queue.hpp` under serial
access: a single thread performs every operation, so the mutex guards are
uncontended and the condition variable predicate `_inner.size() > 0` never
changes between the wait and the pop. The state is the inner queue. -/
structure TaskQueue (R : Type u) (P : TaskPolicy) where
  _inner : TaskQueueInner R P
  deriving DecidableEq, Repr

namespace TaskQueue

variable {R : Type u} {P : TaskPolicy}

/-- `push(task)`: lock, `_inner.push(std::move(task))`, unlock, notify one
waiter (no waiters exist under serial access). -/
def push (q : TaskQueue R P) (task : R) : TaskQueue R P :=
  ⟨q._inner.push task⟩

/-- `size()`: lock and read `_inner.size()`. -/
def size (q : TaskQueue R P) : Nat :=
  q._inner.size

/-- `pop()`: wait until `_inner.size() > 0`, then `return _inner.pop();`.
Under serial access no other thread can make the queue non-empty, so a pop
on an empty queue blocks forever — embedded as `none` (no return). -/
def pop (q : TaskQueue R P) : Option (R × TaskQueue R P) :=
  match q._inner.pop with
  | none => none
  | some (task, inner) => some (task, ⟨inner⟩)

/-- `pop_for(timeout)`: `wait_for` with predicate `_inner.size() > 0`.
Under serial access the predicate cannot become true during the wait, so
the wait status equals the predicate at entry: when it is false the wait
times out with the queue still empty and the function returns the empty
optional; otherwise it returns `_inner.pop()`. -/
def pop_for (q : TaskQueue R P) : Option (R × TaskQueue R P) :=
  if q._inner.size > 0 then q.pop else none

/-- A sequence of pushes, in order. -/
def pushAll (q : TaskQueue R P) (ts : List R) : TaskQueue R P :=
  ts.foldl push q

/-- A sequence of `n` pops, collecting the returned tasks in order (a pop
that would block forever ends the collection). -/
def popN (q : TaskQueue R P) : Nat → List R
  | 0 => []
  | n + 1 =>
    match q.pop with
    | none => []
    | some (task, q2) => task :: q2.popN n

end TaskQueue

end exec

/-! Theorems about the embedded operations. -/

section ResultTheorems

variable {T : Type u} {E : Type v}

/-- C1: at the failing input `Ok(1)` with message `"m"`, the rvalue overload
of `expect` returns the value `1`, while the const-lvalue overload — whose
body calls `expect(std::string(msg))` but lacks a `return` statement — raises
nothing and yields no value, contradicting the claim that both overloads
return the value on `Ok`. -/
theorem expect_lref_ok_yields_no_value :
    (Result.ok 1 : Result Nat Nat).expect "m" = .ok 1 ∧
    (Result.ok 1 : Result Nat Nat).expect_lref "m" = .ok none :=
  ⟨rfl, rfl⟩

/-- C2: dereferencing an end iterator — one whose result pointer is null,
which covers the default-constructed value and error iterators and every
incremented iterator — raises an Unwrap error with the fixed message and
returns nothing else. -/
theorem deref_end_iterator_raises (T E : Type u) :
    (∀ it : Iterator T E, it._result = none →
      it.deref = .error ⟨.Unwrap, "Result cannot be dereferenced"⟩) ∧
    (Iterator.mk_default : Iterator T E)._result = none ∧
    (∀ it : Iterator T E, it.inc._result = none) ∧
    (∀ er : ErrorIterator T E, er._result = none →
      er.deref = .error ⟨.Unwrap, "Result cannot be dereferenced"⟩) ∧
    (ErrorIterator.mk_default : ErrorIterator T E)._result = none ∧
    (∀ er : ErrorIterator T E, er.inc._result = none) := by
  refine ⟨fun it h => ?_, rfl, fun it => rfl, fun er h => ?_, rfl, fun er => rfl⟩
  · simp [Iterator.deref, h]
  · simp [ErrorIterator.deref, h]

/-- Witness for C2: the default-constructed value and error iterators over
`Result Nat Nat` dereference to the Unwrap error. -/
theorem deref_end_iterator_raises_witness :
    (Iterator.mk_default : Iterator Nat Nat).deref =
      .error ⟨.Unwrap, "Result cannot be dereferenced"⟩ ∧
    (ErrorIterator.mk_default : ErrorIterator Nat Nat).deref =
      .error ⟨.Unwrap, "Result cannot be dereferenced"⟩ :=
  ⟨(deref_end_iterator_raises Nat Nat).1 Iterator.mk_default rfl,
   (deref_end_iterator_raises Nat Nat).2.2.2.1 ErrorIterator.mk_default rfl⟩

/-- C3 (counterexample): the claim says calling `unwrap_or(const ValueType&)`
on an `Err` does not return the fallback value; on `Err(0)` with fallback `5`
it returns `5` (its body is `return unwrap_or(ValueType(value));`, which does
return). -/
theorem unwrap_or_lref_returns_fallback_cex :
    (Result.err 0 : Result Nat Nat).unwrap_or_lref 5 = 5 :=
  rfl

/-- C3 (amended): the `unwrap_or` overload taking the fallback by const
reference constructs a copy of its argument, forwards it to the rvalue
overload and returns the result: the fallback value on `Err`, the contained
value on `Ok`. -/
theorem unwrap_or_lref_spec (v fb : T) (e : E) :
    (Result.err e : Result T E).unwrap_or_lref fb = fb ∧
    (Result.ok v : Result T E).unwrap_or_lref fb = v :=
  ⟨rfl, rfl⟩

/-- Witness for C3 (amended) at `Err(7)` and `Ok(4)` with fallback `9`. -/
theorem unwrap_or_lref_spec_witness :
    (Result.err 7 : Result Nat Nat).unwrap_or_lref 9 = 9 ∧
    (Result.ok 4 : Result Nat Nat).unwrap_or_lref 9 = 4 :=
  unwrap_or_lref_spec 4 9 7

/-- C4: `unwrap` on `Ok(v)` returns `v` and `unwrap_err` on `Err(e)` returns
`e`; `unwrap` on `Err(e)` raises an Unwrap error whose message contains the
formatted error payload, and `unwrap_err` on `Ok(v)` raises an Unwrap error
whose message contains the formatted value. -/
theorem unwrap_unwrap_err_spec (fmtT : T → String) (fmtE : E → String)
    (v : T) (e : E) :
    (Result.ok v : Result T E).unwrap fmtE = .ok v ∧
    (Result.err e : Result T E).unwrap_err fmtT = .ok e ∧
    (∃ pre post, (Result.err e : Result T E).unwrap fmtE =
      .error ⟨.Unwrap, pre ++ fmtE e ++ post⟩) ∧
    (∃ pre post, (Result.ok v : Result T E).unwrap_err fmtT =
      .error ⟨.Unwrap, pre ++ fmtT v ++ post⟩) :=
  ⟨rfl, rfl, ⟨"Result is an error (", ")", rfl⟩,
   ⟨"Result is not an error (", ")", rfl⟩⟩

/-- Witness for C4 at `Ok(2)` and `Err(5)` over `Nat` with `toString` as the
formatting adapter. -/
theorem unwrap_unwrap_err_spec_witness :
    (Result.ok 2 : Result Nat Nat).unwrap toString = .ok 2 ∧
    (Result.err 5 : Result Nat Nat).unwrap_err toString = .ok 5 ∧
    (∃ pre post, (Result.err 5 : Result Nat Nat).unwrap toString =
      .error ⟨.Unwrap, pre ++ toString 5 ++ post⟩) ∧
    (∃ pre post, (Result.ok 2 : Result Nat Nat).unwrap_err toString =
      .error ⟨.Unwrap, pre ++ toString 2 ++ post⟩) :=
  unwrap_unwrap_err_spec toString toString 2 5

/-- C5: `map f` sends `Ok(v)` to `Ok(f v)` and leaves `Err(e)` unchanged;
`map_err g` sends `Err(e)` to `Err(g e)` and leaves `Ok(v)` unchanged. -/
theorem map_map_err_spec {U : Type u} {F : Type v}
    (f : T → U) (g : E → F) (v : T) (e : E) :
    (Result.ok v : Result T E).map f = .ok (f v) ∧
    (Result.err e : Result T E).map f = .err e ∧
    (Result.err e : Result T E).map_err g = .err (g e) ∧
    (Result.ok v : Result T E).map_err g = .ok v :=
  ⟨rfl, rfl, rfl, rfl⟩

/-- Witness for C5 at `Ok(3)` and `Err(8)` with the successor function. -/
theorem map_map_err_spec_witness :
    (Result.ok 3 : Result Nat Nat).map Nat.succ = .ok (Nat.succ 3) ∧
    (Result.err 8 : Result Nat Nat).map Nat.succ = .err 8 ∧
    (Result.err 8 : Result Nat Nat).map_err Nat.succ = .err (Nat.succ 8) ∧
    (Result.ok 3 : Result Nat Nat).map_err Nat.succ = .ok 3 :=
  map_map_err_spec Nat.succ Nat.succ 3 8

/-- C6: `flattern` collapses `Ok(Ok(v))` to `Ok(v)`, `Ok(Err(e))` to
`Err(e)`, and propagates an outer `Err(e)` as `Err(e)`. -/
theorem flattern_spec (v : T) (e : E) :
    (Result.ok (Result.ok v) : Result (Result T E) E).flattern = .ok v ∧
    (Result.ok (Result.err e) : Result (Result T E) E).flattern = .err e ∧
    (Result.err e : Result (Result T E) E).flattern = .err e :=
  ⟨rfl, rfl, rfl⟩

/-- Witness for C6 at value `6` and error `2` over `Nat`. -/
theorem flattern_spec_witness :
    (Result.ok (Result.ok 6) : Result (Result Nat Nat) Nat).flattern =
      .ok 6 ∧
    (Result.ok (Result.err 2) : Result (Result Nat Nat) Nat).flattern =
      .err 2 ∧
    (Result.err 2 : Result (Result Nat Nat) Nat).flattern = .err 2 :=
  flattern_spec 6 2

/-- C7: driving the value iterators from `begin()` to `end()` yields exactly
`[v]` on `Ok(v)` and `[]` on `Err`, raising nothing; driving the error view
`error_enumerator()` yields exactly `[e]` on `Err(e)` and `[]` on `Ok`. -/
theorem iteration_spec (v : T) (e : E) :
    (Result.ok v : Result T E).iterValues = .ok [v] ∧
    (Result.err e : Result T E).iterValues = .ok [] ∧
    (Result.err e : Result T E).iterErrors = .ok [e] ∧
    (Result.ok v : Result T E).iterErrors = .ok [] := by
  refine ⟨?_, ?_, ?_, ?_⟩
  · simp [Result.iterValues, Result.begin, Iterator.mk_from, Result.is_err,
      iterLoopV, Iterator.deref, Iterator.inc]
    rfl
  · simp [Result.iterValues, Result.begin, Iterator.mk_from, Result.is_err,
      iterLoopV]
  · simp [Result.iterErrors, Result.error_enumerator, ErrorEnumerator.begin,
      Result.ebegin, ErrorIterator.mk_from, Result.is_ok, iterLoopE,
      ErrorIterator.deref, ErrorIterator.inc]
    rfl
  · simp [Result.iterErrors, Result.error_enumerator, ErrorEnumerator.begin,
      Result.ebegin, ErrorIterator.mk_from, Result.is_ok, iterLoopE]

/-- Witness for C7 at `Ok(5)` and `Err(9)` over `Nat`. -/
theorem iteration_spec_witness :
    (Result.ok 5 : Result Nat Nat).iterValues = .ok [5] ∧
    (Result.err 9 : Result Nat Nat).iterValues = .ok [] ∧
    (Result.err 9 : Result Nat Nat).iterErrors = .ok [9] ∧
    (Result.ok 5 : Result Nat Nat).iterErrors = .ok [] :=
  iteration_spec 5 9

/-- C10: incrementing a value or error iterator is total and raises nothing:
every increment produces the null (default-constructed end) iterator, the
incremented iterator compares equal to the default-constructed one under
`operator==`, and incrementing an end iterator keeps it at the end. -/
theorem inc_is_total_and_ends (it : Iterator T E) (er : ErrorIterator T E)
    [DecidableEq T] [DecidableEq E] :
    it.inc = Iterator.mk_default ∧
    it.inc.inc = it.inc ∧
    Iterator.eq it.inc Iterator.mk_default = true ∧
    er.inc = ErrorIterator.mk_default ∧
    er.inc.inc = er.inc ∧
    ErrorIterator.eq er.inc ErrorIterator.mk_default = true := by
  refine ⟨rfl, rfl, ?_, rfl, rfl, ?_⟩ <;>
    simp [Iterator.eq, ErrorIterator.eq, Iterator.inc, ErrorIterator.inc,
      Iterator.mk_default, ErrorIterator.mk_default]

/-- Witness for C10 at iterators over `Result Nat Nat` built from `Ok(1)`
and `Err(2)`. -/
theorem inc_is_total_and_ends_witness :
    (Iterator.mk_from (Result.ok 1 : Result Nat Nat)).inc =
      Iterator.mk_default ∧
    (Iterator.mk_from (Result.ok 1 : Result Nat Nat)).inc.inc =
      (Iterator.mk_from (Result.ok 1 : Result Nat Nat)).inc ∧
    Iterator.eq (Iterator.mk_from (Result.ok 1 : Result Nat Nat)).inc
      Iterator.mk_default = true ∧
    (ErrorIterator.mk_from (Result.err 2 : Result Nat Nat)).inc =
      ErrorIterator.mk_default ∧
    (ErrorIterator.mk_from (Result.err 2 : Result Nat Nat)).inc.inc =
      (ErrorIterator.mk_from (Result.err 2 : Result Nat Nat)).inc ∧
    ErrorIterator.eq (ErrorIterator.mk_from (Result.err 2 : Result Nat Nat)).inc
      ErrorIterator.mk_default = true :=
  inc_is_total_and_ends (Iterator.mk_from (Result.ok 1))
    (ErrorIterator.mk_from (Result.err 2))

end ResultTheorems

section QueueTheorems

open exec

variable {R : Type u} {P : TaskPolicy}

/-- Two serial queues with the same underlying task sequence are equal. -/
theorem taskQueue_ext {a b : TaskQueue R P}
    (h : a._inner.tasks = b._inner.tasks) : a = b := by
  cases a with
  | mk ia =>
    cases ia with
    | mk la =>
      cases b with
      | mk ib =>
        cases ib with
        | mk lb => cases h; rfl

/-- Pushing the tasks of `ts` in order appends `ts` to the sequence. -/
theorem pushAll_tasks (ts : List R) : ∀ q : TaskQueue R P,
    (q.pushAll ts)._inner.tasks = q._inner.tasks ++ ts := by
  induction ts with
  | nil => intro q; simp [TaskQueue.pushAll]
  | cons t rest ih =>
    intro q
    have hstep : q.pushAll (t :: rest) = (q.push t).pushAll rest := rfl
    rw [hstep, ih]
    simp [TaskQueue.push, TaskQueueInner.push]

/-- Pushing onto the empty queue leaves exactly the pushed sequence. -/
theorem pushAll_empty (ts : List R) :
    (⟨⟨[]⟩⟩ : TaskQueue R P).pushAll ts = ⟨⟨ts⟩⟩ := by
  apply taskQueue_ext
  rw [pushAll_tasks]
  simp

/-- Popping a FIFO queue `n` times returns its first `n` tasks in order. -/
theorem fifo_popN (ts : List R) :
    (⟨⟨ts⟩⟩ : TaskQueue R TaskPolicy.FIFO).popN ts.length = ts := by
  induction ts with
  | nil => rfl
  | cons t rest ih =>
    simp [TaskQueue.popN, TaskQueue.pop, TaskQueueInner.pop, ih]

/-- Popping a LIFO queue as many times as it has tasks returns them in
reverse order. -/
theorem lifo_popN (ts : List R) :
    (⟨⟨ts⟩⟩ : TaskQueue R TaskPolicy.LIFO).popN ts.length = ts.reverse := by
  induction ts using List.reverseRecOn with
  | nil => rfl
  | append_singleton rest t ih =>
    have hlen : (rest ++ [t]).length = rest.length + 1 := by simp
    rw [hlen]
    simp [TaskQueue.popN, TaskQueue.pop, TaskQueueInner.pop,
      List.getLast?_concat, List.dropLast_concat, ih]

/-- C8: on a serially used queue, `n` pushes followed by `n` pops return
the tasks in push order under FIFO and in reverse push order under LIFO. -/
theorem fifo_lifo_pop_order (ts : List R) :
    ((⟨⟨[]⟩⟩ : TaskQueue R TaskPolicy.FIFO).pushAll ts).popN ts.length = ts ∧
    ((⟨⟨[]⟩⟩ : TaskQueue R TaskPolicy.LIFO).pushAll ts).popN ts.length =
      ts.reverse := by
  rw [pushAll_empty, pushAll_empty]
  exact ⟨fifo_popN ts, lifo_popN ts⟩

/-- Witness for C8 with the three pushed tasks `1, 2, 3`. -/
theorem fifo_lifo_pop_order_witness :
    ((⟨⟨[]⟩⟩ : TaskQueue Nat TaskPolicy.FIFO).pushAll [1, 2, 3]).popN
      ([1, 2, 3] : List Nat).length = [1, 2, 3] ∧
    ((⟨⟨[]⟩⟩ : TaskQueue Nat TaskPolicy.LIFO).pushAll [1, 2, 3]).popN
      ([1, 2, 3] : List Nat).length = ([1, 2, 3] : List Nat).reverse :=
  fifo_lifo_pop_order [1, 2, 3]

/-- The inner pop yields nothing exactly on the empty sequence. -/
theorem inner_pop_none_iff (q : TaskQueueInner R P) :
    q.pop = none ↔ q.tasks = [] := by
  cases P with
  | FIFO => cases hq : q.tasks <;> simp [TaskQueueInner.pop, hq]
  | LIFO =>
    cases hq : q.tasks with
    | nil => simp [TaskQueueInner.pop, hq]
    | cons a l =>
      cases hl : (a :: l).getLast? with
      | none => exact absurd (List.getLast?_eq_none_iff.mp hl) (by simp)
      | some b => simp [TaskQueueInner.pop, hq, hl]

/-- C9: `pop_for` always returns an optional and raises nothing: it returns
the empty optional exactly when the wait times out with the queue still
empty (serially, exactly when the queue is empty at entry), and on a
non-empty queue it returns one popped task. -/
theorem pop_for_spec (q : TaskQueue R P) :
    (q.pop_for = none ↔ q.size = 0) ∧
    (0 < q.size → ∃ t q2, q.pop_for = some (t, q2)) := by
  have hsize : q.size = q._inner.tasks.length := rfl
  have hsome : 0 < q.size → ∃ t q2, q.pop_for = some (t, q2) := by
    intro hs
    have hne : ¬(q._inner.tasks = []) := by
      intro hnil
      rw [hsize, hnil] at hs
      exact Nat.lt_irrefl 0 hs
    cases hp : q._inner.pop with
    | none => exact absurd ((inner_pop_none_iff q._inner).mp hp) hne
    | some p =>
      refine ⟨p.1, ⟨p.2⟩, ?_⟩
      have hgt : q._inner.size > 0 := by
        rw [show q._inner.size = q.size from rfl]
        exact hs
      simp [TaskQueue.pop_for, hgt, TaskQueue.pop, hp]
  refine ⟨⟨?_, ?_⟩, hsome⟩
  · intro hnone
    by_contra hs
    have hpos : 0 < q.size := Nat.pos_of_ne_zero hs
    obtain ⟨t, q2, hsome2⟩ := hsome hpos
    rw [hsome2] at hnone
    exact Option.noConfusion hnone
  · intro hzero
    have hng : ¬(q._inner.size > 0) := by
      rw [show q._inner.size = q.size from rfl, hzero]
      exact Nat.lt_irrefl 0
    simp [TaskQueue.pop_for, hng]

/-- Witness for C9: on the one-task FIFO queue over `Nat`, the queue is
non-empty and `pop_for` returns a popped task. -/
theorem pop_for_spec_witness :
    (0 < (⟨⟨[3]⟩⟩ : TaskQueue Nat TaskPolicy.FIFO).size) ∧
    (∃ t q2, (⟨⟨[3]⟩⟩ : TaskQueue Nat TaskPolicy.FIFO).pop_for =
      some (t, q2)) :=
  ⟨by decide, (pop_for_spec (⟨⟨[3]⟩⟩ : TaskQueue Nat TaskPolicy.FIFO)).2
    (by decide)⟩

end QueueTheorems

end Nexus
